import Mathlib

-- Shallow embedding of the RealSense L515 diagnostic scripts.
-- Each namespace models the control flow of one script; the pyrealsense2
-- SDK is treated as an external environment whose outcomes (device lists,
-- pipeline start results, frame arrivals) are inputs to the model.

namespace RealSenseScripts

-- -------------------------------------------------------------------
-- Shared data model: stream kinds, stream requests, frames
-- -------------------------------------------------------------------

inductive StreamKind
  | depth
  | color
  | infrared
deriving DecidableEq

def fmtZ16 : String := "z16"

def fmtBGR8 : String := "bgr8"

def fmtY8 : String := "y8"

structure StreamRequest where
  kind : StreamKind
  width : Nat
  height : Nat
  pixelFormat : String
  fps : Nat
deriving DecidableEq

abbrev StreamConfiguration := List StreamRequest

structure Frame where
  kind : StreamKind
  width : Nat
  height : Nat
deriving DecidableEq

-- The stream requests enabled by the scripts
-- (enable_stream calls with explicit width, height, format, fps).
def depthReq : StreamRequest := ⟨StreamKind.depth, 640, 480, fmtZ16, 30⟩

def colorReq : StreamRequest := ⟨StreamKind.color, 640, 480, fmtBGR8, 30⟩

def infraredReq : StreamRequest := ⟨StreamKind.infrared, 640, 480, fmtY8, 30⟩

-- Outcome of one wait_for_frames call on the pipeline: the SDK call
-- raises on timeout, or returns a frame set in which the depth frame
-- and the color frame may each be present or missing.
inductive WaitResult
  | timeoutRaised
  | frameSet (depthPresent : Bool) (colorPresent : Bool)
deriving DecidableEq

def stopBeforeStartMsg : String := "stop() cannot be called before start()"

-- Model of the SDK call stopping a pipeline: it succeeds on a started
-- pipeline and raises a wrong-api-call-sequence error on a pipeline
-- that is not started (documented librealsense behavior).
def pipelineStop (started : Bool) : Except String Unit :=
  if started then Except.ok () else Except.error stopBeforeStartMsg

-- -------------------------------------------------------------------
-- advanced_diagnostic.py, Method 3 (lines 107-164): the fallback loop
-- over hard-coded candidate stream configurations.
-- -------------------------------------------------------------------

namespace AdvDiag

-- The SDK environment for one run: whether starting the pipeline on a
-- candidate configuration succeeds, and whether a frame set arrives
-- within the 5000 ms wait after a successful start.
structure Env where
  startOk : StreamConfiguration → Bool
  framesOk : StreamConfiguration → Bool

inductive Event
  | tryStart (c : StreamConfiguration)
  | started (c : StreamConfiguration)
  | gotFrames (c : StreamConfiguration)
  | stopInvoked (c : StreamConfiguration)
deriving DecidableEq

-- A candidate succeeds when the whole try body of the loop iteration
-- completes: the pipeline starts and frames arrive within 5000 ms.
def attemptSucceeds (env : Env) (c : StreamConfiguration) : Bool :=
  env.startOk c && env.framesOk c

-- The events of one loop iteration on candidate c.  On success the
-- script stops the pipeline (line 150) before breaking; on any failure
-- the except clause invokes stop inside a try-ignore (lines 161-164).
def attemptEvents (env : Env) (c : StreamConfiguration) : List Event :=
  if env.startOk c then
    if env.framesOk c then
      [Event.tryStart c, Event.started c, Event.gotFrames c, Event.stopInvoked c]
    else [Event.tryStart c, Event.started c, Event.stopInvoked c]
  else [Event.tryStart c, Event.stopInvoked c]

-- The loop over the candidate list (for-loop with break on success).
-- Returns the trace of events and the working configuration, if any.
def fallbackLoop (env : Env) : List StreamConfiguration → List Event × Option StreamConfiguration
  | [] => ([], none)
  | c :: rest =>
    if attemptSucceeds env c then (attemptEvents env c, some c)
    else (attemptEvents env c ++ (fallbackLoop env rest).1, (fallbackLoop env rest).2)

-- The four hard-coded candidate configurations (lines 107-112, built
-- by the enable_stream calls at lines 121-131).
def cfgDepthColor : StreamConfiguration := [depthReq, colorReq]

def cfgDepthOnly : StreamConfiguration := [depthReq]

def cfgColorOnly : StreamConfiguration := [colorReq]

def cfgInfrared : StreamConfiguration := [infraredReq]

def streamConfigs : List StreamConfiguration :=
  [cfgDepthColor, cfgDepthOnly, cfgColorOnly, cfgInfrared]

-- advanced_diagnostic lines 161-164: stop wrapped in try with a bare
-- except that ignores every failure.
def tryStopIgnore (started : Bool) : Except String Unit :=
  match pipelineStop started with
  | Except.ok _ => Except.ok ()
  | Except.error _ => Except.ok ()

end AdvDiag

-- -------------------------------------------------------------------
-- camera_diagnostic.py: device enumeration report (lines 56-108) and
-- the stream test with its finally-clause teardown (lines 113-176).
-- -------------------------------------------------------------------

namespace CamDiag

-- Devices are opaque handles; the environment says whether the whole
-- per-device query block (info, sensors, profiles) succeeds, and what
-- rendered text it produces when it does.
structure EnumEnv where
  queryOk : Nat → Bool
  infoText : Nat → String

inductive DeviceReport
  | info (d : Nat) (text : String)
  | queryError (d : Nat)
deriving DecidableEq

-- One iteration of the enumeration for-loop: the whole block for one
-- device sits inside its own try, whose except prints an error line.
def reportDevice (env : EnumEnv) (d : Nat) : DeviceReport :=
  if env.queryOk d then DeviceReport.info d (env.infoText d) else DeviceReport.queryError d

-- The for-loop over the enumerated devices (lines 57-108).
def enumerateReport (env : EnumEnv) : List Nat → List DeviceReport
  | [] => []
  | d :: rest => reportDevice env d :: enumerateReport env rest

-- Outcome of one iteration of the 5-iteration frame loop (141-163):
-- the wait raises (caught per iteration), or both frames are present,
-- or at least one of depth and color is missing (warning printed).
inductive IterOut
  | waitRaised
  | bothPresent
  | missingSome
deriving DecidableEq

structure TestEnv where
  serialOk : Bool
  startOk : Bool
  iter : Nat → IterOut

inductive Event
  | noDeviceReport
  | report (r : DeviceReport)
  | enabledDevice
  | defaultDevice
  | streamsEnabled
  | started
  | startRaised
  | innerCaught
  | frameIter (i : Nat) (r : IterOut)
  | passed
  | stopOk
  | stopRaised
  | outerCaught
deriving DecidableEq

-- The stream test (lines 113-176).  The inner try enables streams and
-- starts the pipeline; its except catches a start failure; the finally
-- clause (lines 170-173) calls stop UNGUARDED, so when the pipeline
-- never started the stop call raises and only the generic outer except
-- (line 175) catches it.
def streamTest (env : TestEnv) : List Event :=
  (if env.serialOk then [Event.enabledDevice] else [Event.defaultDevice]) ++
  (if env.startOk then
     [Event.streamsEnabled, Event.started] ++
       (List.range 5).map (fun i => Event.frameIter i (env.iter i)) ++ [Event.passed] ++
       (match pipelineStop true with
        | Except.ok _ => [Event.stopOk]
        | Except.error _ => [Event.stopRaised, Event.outerCaught])
   else
     [Event.streamsEnabled, Event.startRaised, Event.innerCaught] ++
       (match pipelineStop false with
        | Except.ok _ => [Event.stopOk]
        | Except.error _ => [Event.stopRaised, Event.outerCaught]))

structure MainEnv where
  devices : List Nat
  enumEnv : EnumEnv
  test : TestEnv

-- main (lines 24-182): on an empty enumeration it prints the no-device
-- report and returns (lines 44-52) before any configuration, stream or
-- pipeline is touched; otherwise it reports every device and runs the
-- stream test.
def cameraDiagMain (env : MainEnv) : List Event :=
  if env.devices.isEmpty then [Event.noDeviceReport]
  else (enumerateReport env.enumEnv env.devices).map Event.report ++ streamTest env.test

end CamDiag

-- -------------------------------------------------------------------
-- photo1.py module flow up to the pipeline start (lines 13-72).
-- -------------------------------------------------------------------

namespace Photo1

def serialA : String := "6&1758D7C"

def serialB : String := "6&1CF34A1"

structure Env where
  devices : List Nat
  enable1Raises : Bool
  enable2Raises : Bool
  resolveOk : Bool
  hasRGB : Bool
  startOk : Bool

inductive Event
  | noDeviceMsg
  | enableDeviceTried (s : String)
  | enableFailMsg
  | resolved
  | resolveFailed
  | nameErrorCrash
  | rgbExit
  | streamsEnabled
  | pipelineStarted
  | startFailedExit
deriving DecidableEq

-- Lines 33-39: on an empty enumeration the script tries
-- config.enable_device with two hard-coded serials, the second only
-- when the first raises, and prints a message when both raise.
def fallbackEvents (env : Env) : List Event :=
  if env.enable1Raises then
    if env.enable2Raises then
      [Event.enableDeviceTried serialA, Event.enableDeviceTried serialB, Event.enableFailMsg]
    else [Event.enableDeviceTried serialA, Event.enableDeviceTried serialB]
  else [Event.enableDeviceTried serialA]

-- The module flow from the device query to the pipeline start (the
-- display loop after a successful start is outside the scope of the
-- claims about this script).  When config.resolve fails, the variable
-- holding the device is never assigned, so the later access to its
-- sensors (line 54) crashes with an undefined-name error.
def photo1Startup (env : Env) : List Event :=
  (if env.devices.isEmpty then Event.noDeviceMsg :: fallbackEvents env else []) ++
  (if env.resolveOk then
     Event.resolved ::
       (if env.hasRGB then
          Event.streamsEnabled ::
            (if env.startOk then [Event.pipelineStarted] else [Event.startFailedExit])
        else [Event.rgbExit])
   else [Event.resolveFailed, Event.nameErrorCrash])

end Photo1

-- -------------------------------------------------------------------
-- black_white.py: the initial frame acquisition (lines 81-91) and one
-- step of the display loop (lines 104-110).
-- -------------------------------------------------------------------

namespace BlackWhite

def failMsg : String := "Failed to get frames from the camera. Check connections and try again."

-- Lines 81-91: wait_for_frames(5000) inside a try; a missing depth or
-- color frame raises a RuntimeError which the except catches and turns
-- into a NEW RuntimeError that propagates out (to the finally, which
-- stops the pipeline, ending the session).  A wait timeout takes the
-- same except path.
def initialAcquire (w : WaitResult) : Except String Unit :=
  match w with
  | WaitResult.timeoutRaised => Except.error failMsg
  | WaitResult.frameSet d c => if d && c then Except.ok () else Except.error failMsg

inductive LoopStep
  | sessionAborted
  | pollAgain
  | display
deriving DecidableEq

-- Lines 104-110: the main loop waits with the default timeout and NO
-- try, so a timeout raises out to the finally (aborting the session),
-- while an incomplete frame set hits the continue statement (poll
-- again).
def mainLoopStep (w : WaitResult) : LoopStep :=
  match w with
  | WaitResult.timeoutRaised => LoopStep.sessionAborted
  | WaitResult.frameSet d c => if d && c then LoopStep.display else LoopStep.pollAgain

end BlackWhite

-- -------------------------------------------------------------------
-- direct_camera_access.py: the bounded acquisition retry loop of the
-- first approach (lines 78-107).
-- -------------------------------------------------------------------

namespace DirectAccess

structure Env where
  attempt : Nat → WaitResult

-- while tries < max_tries: each wait_for_frames call sits in a try
-- whose except prints and falls through, and an incomplete frame set
-- prints a missing-frames message and falls through; both paths retry.
-- Only a frame set with both depth and color present returns success.
-- The fuel argument models the remaining tries, t the current index.
def acquireLoop (env : Env) : Nat → Nat → Option Nat
  | 0, _ => none
  | fuel + 1, t =>
    match env.attempt t with
    | WaitResult.frameSet true true => some t
    | _ => acquireLoop env fuel (t + 1)

-- max_tries = 5 (line 79), attempts indexed from 0.
def firstApproachAcquire (env : Env) : Option Nat := acquireLoop env 5 0

end DirectAccess

-- -------------------------------------------------------------------
-- video_viewer_with_photo_saver.py module flow (lines 13-121).
-- -------------------------------------------------------------------

namespace Viewer

inductive Key
  | save
  | quit
  | other
deriving DecidableEq

-- One iteration of the display loop (lines 80-117): the untimed wait
-- raises (propagating to the finally), or the frame set is incomplete
-- (continue), or a frame pair is displayed and a key is read.
inductive Iter
  | waitRaised
  | incomplete
  | frameKey (k : Key)
deriving DecidableEq

inductive Event
  | resolveFailed
  | rgbExit
  | started
  | startRaised
  | mkdirRaised
  | acquire
  | displayed
  | saved
  | loopRaised
  | stopped
deriving DecidableEq

structure Env where
  resolveOk : Bool
  hasRGB : Bool
  startOk : Bool
  mkdirOk : Bool
  initial : WaitResult
  iters : List Iter

-- The display loop, driven by a finite script of iteration outcomes;
-- an exhausted script stands for the user quitting.
def loopEvents : List Iter → List Event
  | [] => []
  | Iter.waitRaised :: _ => [Event.acquire, Event.loopRaised]
  | Iter.incomplete :: rest => Event.acquire :: loopEvents rest
  | Iter.frameKey Key.save :: rest =>
      Event.acquire :: Event.displayed :: Event.saved :: loopEvents rest
  | Iter.frameKey Key.quit :: _ => [Event.acquire, Event.displayed]
  | Iter.frameKey Key.other :: rest => Event.acquire :: Event.displayed :: loopEvents rest

-- Lines 62-67: the initial wait succeeds only when both frames are
-- present; a timeout or an incomplete set raises (out to the finally).
def initialOk : WaitResult → Bool
  | WaitResult.timeoutRaised => false
  | WaitResult.frameSet d c => d && c

-- Module flow: resolve and RGB check (lines 18-30), pipeline start at
-- line 36, save-directory creation at lines 39-41 OUTSIDE the
-- try/finally, then the try block whose finally stops the pipeline.
-- A failure while creating the save directory therefore escapes with
-- the pipeline started and never stopped.
def viewerRun (env : Env) : List Event :=
  if env.resolveOk then
    if env.hasRGB then
      if env.startOk then
        Event.started ::
          (if env.mkdirOk then
             Event.acquire ::
               ((if initialOk env.initial then loopEvents env.iters else []) ++ [Event.stopped])
           else [Event.mkdirRaised])
      else [Event.startRaised]
    else [Event.rgbExit]
  else [Event.resolveFailed]

end Viewer

-- -------------------------------------------------------------------
-- realsense_preset.py (lines 7-57): argument validation against the
-- fixed preset table, then pipeline start and the try/finally teardown.
-- -------------------------------------------------------------------

namespace Preset

-- Lines 24-29: the preset table.
def presets : List (String × Nat) :=
  [("no_ambient_light", 3), ("low_ambient_light", 2), ("max_range", 4), ("short_range", 5)]

def lookupPreset (a : String) : Option Nat :=
  (presets.find? (fun p => p.1 == a)).map (fun p => p.2)

-- Line 31: the guard condition of the usage branch, on the full argv
-- (first element is the script name).
def presetArgInvalid (argv : List String) : Bool :=
  match argv with
  | [_, a] => (lookupPreset a).isNone
  | _ => true

inductive Event
  | usagePrinted
  | pipelineCreated
  | pipelineStarted
  | startRaised
  | presetApplied (v : Nat)
  | presetFailed
  | pipelineStopped
deriving DecidableEq

structure Env where
  startOk : Bool
  hasSensor : Bool
  sensorSupports : Bool
  setOptionOk : Bool

-- main: invalid or missing argument prints usage and returns (exit
-- code 0) before the pipeline object exists; a valid argument creates
-- the pipeline, starts it unguarded (an exception there ends the
-- process with code 1), and otherwise runs the guarded preset
-- application inside a try whose finally always stops the pipeline.
-- Indexing the sensor list can raise inside the try (line 48); the
-- finally still stops the pipeline and the exception exits with 1.
def presetMain (argv : List String) (env : Env) : List Event × Nat :=
  match argv with
  | [_, a] =>
    match lookupPreset a with
    | none => ([Event.usagePrinted], 0)
    | some v =>
      if env.startOk then
        if env.hasSensor then
          ([Event.pipelineCreated, Event.pipelineStarted] ++
             (if env.sensorSupports && env.setOptionOk then [Event.presetApplied v]
              else [Event.presetFailed]) ++ [Event.pipelineStopped], 0)
        else ([Event.pipelineCreated, Event.pipelineStarted, Event.pipelineStopped], 1)
      else ([Event.pipelineCreated, Event.startRaised], 1)
  | _ => ([Event.usagePrinted], 0)

end Preset

-- -------------------------------------------------------------------
-- Frame acquisition against an active configuration.  In librealsense
-- a video frame exposes the width and height of the stream profile it
-- was produced on, and an explicit enable_stream request installs
-- exactly that profile; a poll delivers frames for a subset of the
-- enabled streams (camera_diagnostic lines 129-156 relies on this).
-- -------------------------------------------------------------------

namespace Acquire

structure AcqEnv where
  delivered : StreamKind → Bool

def frameOf (r : StreamRequest) : Frame := ⟨r.kind, r.width, r.height⟩

def acquireFrames (cfg : StreamConfiguration) (env : AcqEnv) : List Frame :=
  (cfg.filter (fun r => env.delivered r.kind)).map frameOf

end Acquire

-- camera_diagnostic lines 130-131: the streams enabled for the test.
def cameraDiagStreams : StreamConfiguration := [depthReq, colorReq]

-- -------------------------------------------------------------------
-- Concrete environments used by the witness and counterexample
-- theorems below.
-- -------------------------------------------------------------------

def envC1 : AdvDiag.Env := ⟨fun c => decide (c = AdvDiag.cfgDepthOnly), fun _ => true⟩

def envC5 : AdvDiag.Env := ⟨fun _ => false, fun _ => false⟩

def envC9 : AdvDiag.Env := ⟨fun _ => true, fun c => decide (c = AdvDiag.cfgDepthOnly)⟩

def infoStub : String := "Intel RealSense L515"

def envT0 : CamDiag.TestEnv := ⟨true, false, fun _ => CamDiag.IterOut.bothPresent⟩

def envT1 : CamDiag.TestEnv := ⟨true, true, fun _ => CamDiag.IterOut.bothPresent⟩

def enumEnvW : CamDiag.EnumEnv := ⟨fun d => decide (d ≠ 0), fun _ => infoStub⟩

def envMainEmpty : CamDiag.MainEnv := ⟨[], enumEnvW, envT1⟩

def envPhotoEmpty : Photo1.Env := ⟨[], false, false, false, false, false⟩

def envDca : DirectAccess.Env :=
  ⟨fun t => if t = 0 then WaitResult.frameSet true false else WaitResult.frameSet true true⟩

def envViewerLeak : Viewer.Env := ⟨true, true, true, false, WaitResult.frameSet true true, []⟩

def envViewerOk : Viewer.Env :=
  ⟨true, true, true, true, WaitResult.frameSet true true, [Viewer.Iter.frameKey Viewer.Key.quit]⟩

def envViewerNoStart : Viewer.Env := ⟨true, true, false, true, WaitResult.timeoutRaised, []⟩

def envPresetW : Preset.Env := ⟨true, true, true, true⟩

def presetScript : String := "realsense_preset.py"

def badPresetArg : String := "medium_range"

def goodPresetArg : String := "max_range"

def envAcqAll : Acquire.AcqEnv := ⟨fun _ => true⟩

-- -------------------------------------------------------------------
-- Theorems
-- -------------------------------------------------------------------

/-- Claim C1: for every ordered candidate list, the fallback loop of
advanced_diagnostic attempts candidates in list order and stops at the
first candidate that succeeds: the working configuration it reports is
that candidate, and the event trace consists exactly of the attempts on
the preceding (failing) candidates followed by the attempt on the
winner, so no later candidate is ever attempted. -/
theorem C1_negotiate_first_success (env : AdvDiag.Env) (pre : List StreamConfiguration)
    (w : StreamConfiguration) (post : List StreamConfiguration)
    (hpre : ∀ c ∈ pre, AdvDiag.attemptSucceeds env c = false)
    (hw : AdvDiag.attemptSucceeds env w = true) :
    (AdvDiag.fallbackLoop env (pre ++ w :: post)).2 = some w ∧
    (AdvDiag.fallbackLoop env (pre ++ w :: post)).1 =
      (pre.map (AdvDiag.attemptEvents env)).flatten ++ AdvDiag.attemptEvents env w := by
  induction pre with
  | nil =>
    constructor
    · simp [AdvDiag.fallbackLoop, hw]
    · simp [AdvDiag.fallbackLoop, hw]
  | cons c cs ih =>
    have hc : AdvDiag.attemptSucceeds env c = false := hpre c (by simp)
    have ih2 := ih (fun b hb => hpre b (by simp [hb]))
    constructor
    · simpa [AdvDiag.fallbackLoop, hc] using ih2.1
    · simp [AdvDiag.fallbackLoop, hc, ih2.2, List.append_assoc]

/-- Witness for C1: with the scripted candidate list, an environment in
which only the depth-only candidate succeeds makes the loop report the
depth-only configuration after attempting exactly the first candidate
and the winner. -/
theorem C1_negotiate_first_success_witness :
    ((∀ c ∈ [AdvDiag.cfgDepthColor], AdvDiag.attemptSucceeds envC1 c = false) ∧
      AdvDiag.attemptSucceeds envC1 AdvDiag.cfgDepthOnly = true) ∧
    ((AdvDiag.fallbackLoop envC1 AdvDiag.streamConfigs).2 = some AdvDiag.cfgDepthOnly ∧
      (AdvDiag.fallbackLoop envC1 AdvDiag.streamConfigs).1 =
        ([AdvDiag.cfgDepthColor].map (AdvDiag.attemptEvents envC1)).flatten ++
          AdvDiag.attemptEvents envC1 AdvDiag.cfgDepthOnly) :=
  ⟨⟨by decide, by decide⟩,
    C1_negotiate_first_success envC1 [AdvDiag.cfgDepthColor] AdvDiag.cfgDepthOnly
      [AdvDiag.cfgColorOnly, AdvDiag.cfgInfrared] (by decide) (by decide)⟩

/-- Claim C5: each negotiation attempt is atomic.  For every candidate
whose attempt fails, the events of that attempt end with the stop
invocation on that candidate and precede every event of the remaining
candidates, so the pipeline of the failed attempt is stopped before the
next candidate is attempted, and the failed candidate is not the
working configuration. -/
theorem C5_attempt_atomic (env : AdvDiag.Env) (c : StreamConfiguration)
    (rest : List StreamConfiguration)
    (hfail : AdvDiag.attemptSucceeds env c = false) :
    (AdvDiag.fallbackLoop env (c :: rest)).1 =
      AdvDiag.attemptEvents env c ++ (AdvDiag.fallbackLoop env rest).1 ∧
    (∃ t, AdvDiag.attemptEvents env c = t ++ [AdvDiag.Event.stopInvoked c]) ∧
    (AdvDiag.fallbackLoop env (c :: rest)).2 = (AdvDiag.fallbackLoop env rest).2 := by
  refine ⟨by simp [AdvDiag.fallbackLoop, hfail], ?_, by simp [AdvDiag.fallbackLoop, hfail]⟩
  cases hs : env.startOk c with
  | false => exact ⟨[AdvDiag.Event.tryStart c], by simp [AdvDiag.attemptEvents, hs]⟩
  | true =>
    cases hf : env.framesOk c with
    | false =>
      exact ⟨[AdvDiag.Event.tryStart c, AdvDiag.Event.started c],
        by simp [AdvDiag.attemptEvents, hs, hf]⟩
    | true =>
      exact ⟨[AdvDiag.Event.tryStart c, AdvDiag.Event.started c, AdvDiag.Event.gotFrames c],
        by simp [AdvDiag.attemptEvents, hs, hf]⟩

/-- Witness for C5: in an environment where every start fails, the
attempt on the first scripted candidate ends with a stop invocation and
the loop moves on to the remaining candidates. -/
theorem C5_attempt_atomic_witness :
    AdvDiag.attemptSucceeds envC5 AdvDiag.cfgDepthColor = false ∧
    ((AdvDiag.fallbackLoop envC5 (AdvDiag.cfgDepthColor :: [AdvDiag.cfgDepthOnly])).1 =
        AdvDiag.attemptEvents envC5 AdvDiag.cfgDepthColor ++
          (AdvDiag.fallbackLoop envC5 [AdvDiag.cfgDepthOnly]).1 ∧
      (∃ t, AdvDiag.attemptEvents envC5 AdvDiag.cfgDepthColor =
        t ++ [AdvDiag.Event.stopInvoked AdvDiag.cfgDepthColor]) ∧
      (AdvDiag.fallbackLoop envC5 (AdvDiag.cfgDepthColor :: [AdvDiag.cfgDepthOnly])).2 =
        (AdvDiag.fallbackLoop envC5 [AdvDiag.cfgDepthOnly]).2) :=
  ⟨by decide,
    C5_attempt_atomic envC5 AdvDiag.cfgDepthColor [AdvDiag.cfgDepthOnly] (by decide)⟩

/-- Claim C9: in the fallback loop a candidate is declared the working
configuration only when the pipeline start succeeds AND a frame set
arrives within the 5000 ms wait; a candidate whose pipeline starts but
yields no frames in time is treated as failed and the loop proceeds to
the rest of the candidate list. -/
theorem C9_success_requires_frames (env : AdvDiag.Env) :
    (∀ cs w, (AdvDiag.fallbackLoop env cs).2 = some w →
      env.startOk w = true ∧ env.framesOk w = true) ∧
    (∀ c rest, env.startOk c = true → env.framesOk c = false →
      AdvDiag.fallbackLoop env (c :: rest) =
        (AdvDiag.attemptEvents env c ++ (AdvDiag.fallbackLoop env rest).1,
          (AdvDiag.fallbackLoop env rest).2)) := by
  constructor
  · intro cs
    induction cs with
    | nil => intro w h; simp [AdvDiag.fallbackLoop] at h
    | cons c rest ih =>
      intro w h
      cases hc : AdvDiag.attemptSucceeds env c with
      | false =>
        rw [AdvDiag.fallbackLoop] at h
        simp [hc] at h
        exact ih w h
      | true =>
        rw [AdvDiag.fallbackLoop] at h
        simp [hc] at h
        subst h
        simpa [AdvDiag.attemptSucceeds, Bool.and_eq_true] using hc
  · intro c rest h1 h2
    have hc : AdvDiag.attemptSucceeds env c = false := by
      simp [AdvDiag.attemptSucceeds, h1, h2]
    simp [AdvDiag.fallbackLoop, hc]

/-- Witness for C9: in an environment where every candidate starts but
only the depth-only candidate delivers frames, the loop declares the
depth-only candidate the working configuration, and the first scripted
candidate, which starts but yields no frames, is failed with the loop
proceeding to the rest. -/
theorem C9_success_requires_frames_witness :
    ((AdvDiag.fallbackLoop envC9 AdvDiag.streamConfigs).2 = some AdvDiag.cfgDepthOnly →
      envC9.startOk AdvDiag.cfgDepthOnly = true ∧
        envC9.framesOk AdvDiag.cfgDepthOnly = true) ∧
    (AdvDiag.fallbackLoop envC9 AdvDiag.streamConfigs =
      (AdvDiag.attemptEvents envC9 AdvDiag.cfgDepthColor ++
          (AdvDiag.fallbackLoop envC9
            [AdvDiag.cfgDepthOnly, AdvDiag.cfgColorOnly, AdvDiag.cfgInfrared]).1,
        (AdvDiag.fallbackLoop envC9
          [AdvDiag.cfgDepthOnly, AdvDiag.cfgColorOnly, AdvDiag.cfgInfrared]).2)) :=
  ⟨(C9_success_requires_frames envC9).1 AdvDiag.streamConfigs AdvDiag.cfgDepthOnly,
    (C9_success_requires_frames envC9).2 AdvDiag.cfgDepthColor
      [AdvDiag.cfgDepthOnly, AdvDiag.cfgColorOnly, AdvDiag.cfgInfrared]
      (by decide) (by decide)⟩

/-- Claim C2 counterexample: the claim that stop on a session that
never reached Active signals no error, and that every failure during
teardown is swallowed, is false on camera_diagnostic.  In its stream
test with a failed pipeline start, the finally clause calls stop
unguarded on the never-started pipeline, the stop call raises, and the
error escapes the teardown to the generic outer handler. -/
theorem C2_teardown_counterexample :
    CamDiag.streamTest envT0 =
      [CamDiag.Event.enabledDevice, CamDiag.Event.streamsEnabled, CamDiag.Event.startRaised,
        CamDiag.Event.innerCaught, CamDiag.Event.stopRaised, CamDiag.Event.outerCaught] ∧
    CamDiag.Event.stopRaised ∈ CamDiag.streamTest envT0 :=
  ⟨rfl, by decide⟩

/-- Claim C2 as amended: the teardown of the fallback loop in
advanced_diagnostic wraps stop in a try with a bare except, so invoking
it twice or on a pipeline that never started signals no error; the
finally-clause teardown of camera_diagnostic signals no error only when
the pipeline actually started, and its stop raises out of the teardown
whenever the pipeline never started. -/
theorem C2_stop_swallow_amended :
    (∀ b, AdvDiag.tryStopIgnore b = Except.ok ()) ∧
    (∀ env : CamDiag.TestEnv, env.startOk = true →
      CamDiag.Event.stopRaised ∉ CamDiag.streamTest env) ∧
    (∀ env : CamDiag.TestEnv, env.startOk = false →
      CamDiag.Event.stopRaised ∈ CamDiag.streamTest env) := by
  refine ⟨?_, ?_, ?_⟩
  · intro b; cases b <;> rfl
  · intro env h
    cases hs : env.serialOk <;>
      simp [CamDiag.streamTest, h, hs, pipelineStop]
  · intro env h
    cases hs : env.serialOk <;>
      simp [CamDiag.streamTest, h, hs, pipelineStop]

/-- Witness for the amended C2: concrete runs of both teardown shapes,
one with a started pipeline and one with a never-started pipeline. -/
theorem C2_stop_swallow_witness :
    AdvDiag.tryStopIgnore false = Except.ok () ∧
    CamDiag.Event.stopRaised ∉ CamDiag.streamTest envT1 ∧
    CamDiag.Event.stopRaised ∈ CamDiag.streamTest envT0 :=
  ⟨C2_stop_swallow_amended.1 false, C2_stop_swallow_amended.2.1 envT1 rfl,
    C2_stop_swallow_amended.2.2 envT0 rfl⟩

/-- Claim C3 counterexample: the claim that on an empty enumeration no
stream configuration is attempted at all is false on photo1, whose
module flow reacts to an empty device list by attempting the
enable_device fallback with a hard-coded serial before carrying on. -/
theorem C3_empty_enumeration_counterexample :
    Photo1.photo1Startup envPhotoEmpty =
      [Photo1.Event.noDeviceMsg, Photo1.Event.enableDeviceTried Photo1.serialA,
        Photo1.Event.resolveFailed, Photo1.Event.nameErrorCrash] ∧
    Photo1.Event.enableDeviceTried Photo1.serialA ∈ Photo1.photo1Startup envPhotoEmpty :=
  ⟨rfl, by decide⟩

/-- Claim C3 as amended: on an empty enumeration camera_diagnostic
prints the no-device report and returns without touching any
configuration or pipeline, while photo1 always attempts the
enable_device fallback with its first hard-coded serial. -/
theorem C3_no_device_amended :
    (∀ env : CamDiag.MainEnv, env.devices = [] →
      CamDiag.cameraDiagMain env = [CamDiag.Event.noDeviceReport]) ∧
    (∀ env : Photo1.Env, env.devices = [] →
      Photo1.Event.enableDeviceTried Photo1.serialA ∈ Photo1.photo1Startup env) := by
  constructor
  · intro env h
    simp [CamDiag.cameraDiagMain, h]
  · intro env h
    have hmem : Photo1.Event.enableDeviceTried Photo1.serialA ∈ Photo1.fallbackEvents env := by
      unfold Photo1.fallbackEvents
      cases env.enable1Raises <;> cases env.enable2Raises <;> simp
    simp [Photo1.photo1Startup, h, hmem]

/-- Witness for the amended C3: both conjuncts at concrete empty-device
environments. -/
theorem C3_no_device_witness :
    CamDiag.cameraDiagMain envMainEmpty = [CamDiag.Event.noDeviceReport] ∧
    Photo1.Event.enableDeviceTried Photo1.serialA ∈ Photo1.photo1Startup envPhotoEmpty :=
  ⟨C3_no_device_amended.1 envMainEmpty rfl, C3_no_device_amended.2 envPhotoEmpty rfl⟩

/-- Claim C10: in the enumeration report of camera_diagnostic every
device is handled inside its own try, so the report has one entry per
enumerated device and the entry at each position depends only on that
device; a query failure on an earlier device cannot affect it. -/
theorem C10_per_device_isolation (env : CamDiag.EnumEnv) (ds : List Nat) (i : Nat) :
    (CamDiag.enumerateReport env ds).length = ds.length ∧
    (CamDiag.enumerateReport env ds)[i]? = ds[i]?.map (CamDiag.reportDevice env) := by
  constructor
  · induction ds with
    | nil => rfl
    | cons d rest ih => simp [CamDiag.enumerateReport, ih]
  · induction ds generalizing i with
    | nil => simp [CamDiag.enumerateReport]
    | cons d rest ih =>
      cases i with
      | zero => simp [CamDiag.enumerateReport]
      | succ n => simp [CamDiag.enumerateReport, ih]

/-- Claim C4 counterexample: the claim that an incomplete frame set is
never treated as a fatal error that terminates the session is false on
black_white.  In its initial acquisition a frame set with depth present
and color missing raises an error that propagates to the finally and
ends the session, and in its main loop a wait timeout likewise raises
out of the loop instead of yielding a retryable timeout condition. -/
theorem C4_incomplete_fatal_counterexample :
    BlackWhite.initialAcquire (WaitResult.frameSet true false) =
      Except.error BlackWhite.failMsg ∧
    BlackWhite.mainLoopStep WaitResult.timeoutRaised = BlackWhite.LoopStep.sessionAborted :=
  ⟨rfl, rfl⟩

/-- Claim C4 as amended: in the retry loop of direct_camera_access a
wait that times out or an incomplete frame set is treated as not yet
ready and the loop polls again at the next try, success is declared
only for a frame set carrying both depth and color, and the loop never
propagates an exception (it is a total function into an optional
result); in the main loop of black_white an incomplete frame set also
leads to polling again; but the initial acquisition of black_white
treats a timeout or an incomplete set as fatal. -/
theorem C4_acquire_retry_amended :
    (∀ (env : DirectAccess.Env) (fuel t : Nat),
      env.attempt t ≠ WaitResult.frameSet true true →
      DirectAccess.acquireLoop env (fuel + 1) t = DirectAccess.acquireLoop env fuel (t + 1)) ∧
    (∀ (env : DirectAccess.Env) (fuel t r : Nat),
      DirectAccess.acquireLoop env fuel t = some r →
      env.attempt r = WaitResult.frameSet true true) ∧
    (∀ d c, d && c = false →
      BlackWhite.mainLoopStep (WaitResult.frameSet d c) = BlackWhite.LoopStep.pollAgain) := by
  refine ⟨?_, ?_, ?_⟩
  · intro env fuel t h
    cases ha : env.attempt t with
    | timeoutRaised => simp [DirectAccess.acquireLoop, ha]
    | frameSet d c =>
      cases d with
      | true =>
        cases c with
        | true => exact absurd ha h
        | false => simp [DirectAccess.acquireLoop, ha]
      | false => cases c <;> simp [DirectAccess.acquireLoop, ha]
  · intro env fuel
    induction fuel with
    | zero => intro t r h; simp [DirectAccess.acquireLoop] at h
    | succ n ih =>
      intro t r h
      cases ha : env.attempt t with
      | timeoutRaised =>
        rw [DirectAccess.acquireLoop] at h
        simp [ha] at h
        exact ih (t + 1) r h
      | frameSet d c =>
        cases d with
        | false =>
          rw [DirectAccess.acquireLoop] at h
          simp [ha] at h
          exact ih (t + 1) r h
        | true =>
          cases c with
          | false =>
            rw [DirectAccess.acquireLoop] at h
            simp [ha] at h
            exact ih (t + 1) r h
          | true =>
            rw [DirectAccess.acquireLoop] at h
            simp [ha] at h
            subst h
            exact ha
  · intro d c h
    cases d <;> cases c <;> simp_all [BlackWhite.mainLoopStep]

/-- Witness for the amended C4: a run in which the first try yields an
incomplete frame set (retried) and the second yields a complete one
(declared success), plus the poll-again step of the black_white main
loop. -/
theorem C4_acquire_retry_witness :
    (envDca.attempt 0 ≠ WaitResult.frameSet true true ∧
      DirectAccess.acquireLoop envDca 5 0 = DirectAccess.acquireLoop envDca 4 1) ∧
    envDca.attempt 1 = WaitResult.frameSet true true ∧
    BlackWhite.mainLoopStep (WaitResult.frameSet true false) = BlackWhite.LoopStep.pollAgain :=
  ⟨⟨by decide, C4_acquire_retry_amended.1 envDca 4 0 (by decide)⟩,
    C4_acquire_retry_amended.2.1 envDca 5 0 1 (by decide),
    C4_acquire_retry_amended.2.2 true false (by decide)⟩

/-- Helper: the display loop of the viewer never emits a pipeline
start or stop event; the lifecycle events come only from the
surrounding module flow. -/
theorem viewer_loop_no_lifecycle (its : List Viewer.Iter) :
    Viewer.Event.stopped ∉ Viewer.loopEvents its ∧
    Viewer.Event.started ∉ Viewer.loopEvents its := by
  induction its with
  | nil => simp [Viewer.loopEvents]
  | cons it rest ih =>
    cases it with
    | waitRaised => simp [Viewer.loopEvents]
    | incomplete => simp [Viewer.loopEvents, ih.1, ih.2]
    | frameKey k => cases k <;> simp [Viewer.loopEvents, ih.1, ih.2]

/-- Claim C6 counterexample: the claim that on every execution path in
which a pipeline is started a stop is eventually invoked is false on
video_viewer_with_photo_saver.  The save-directory creation sits
between the pipeline start and the try/finally, so when it fails the
run ends with the pipeline started and never stopped. -/
theorem C6_leak_counterexample :
    Viewer.viewerRun envViewerLeak = [Viewer.Event.started, Viewer.Event.mkdirRaised] ∧
    Viewer.Event.started ∈ Viewer.viewerRun envViewerLeak ∧
    Viewer.Event.stopped ∉ Viewer.viewerRun envViewerLeak :=
  ⟨rfl, by decide, by decide⟩

/-- Claim C6 as amended: outside the window between the pipeline start
and the try block (where a save-directory failure leaks the started
pipeline), the lifecycle holds: when directory creation succeeds every
viewer run that starts the pipeline ends with a stop and all
acquisition happens strictly between the start and the stop; runs
whose start fails perform no acquisition; and every realsense_preset
run that starts its pipeline also stops it. -/
theorem C6_lifecycle_amended :
    (∀ env : Viewer.Env, env.resolveOk = true → env.hasRGB = true → env.startOk = true →
      env.mkdirOk = true →
      ∃ mid, Viewer.viewerRun env = Viewer.Event.started :: mid ++ [Viewer.Event.stopped] ∧
        Viewer.Event.stopped ∉ mid ∧ Viewer.Event.started ∉ mid) ∧
    (∀ env : Viewer.Env, env.startOk = false →
      Viewer.Event.acquire ∉ Viewer.viewerRun env) ∧
    (∀ (argv : List String) (env : Preset.Env),
      Preset.Event.pipelineStarted ∈ (Preset.presetMain argv env).1 →
      Preset.Event.pipelineStopped ∈ (Preset.presetMain argv env).1) := by
  refine ⟨?_, ?_, ?_⟩
  · intro env h1 h2 h3 h4
    refine ⟨Viewer.Event.acquire ::
      (if Viewer.initialOk env.initial then Viewer.loopEvents env.iters else []), ?_, ?_, ?_⟩
    · simp [Viewer.viewerRun, h1, h2, h3, h4]
    · cases hio : Viewer.initialOk env.initial <;>
        simp [hio, (viewer_loop_no_lifecycle env.iters).1]
    · cases hio : Viewer.initialOk env.initial <;>
        simp [hio, (viewer_loop_no_lifecycle env.iters).2]
  · intro env h
    cases hr : env.resolveOk <;> cases hg : env.hasRGB <;>
      simp [Viewer.viewerRun, hr, hg, h]
  · intro argv env h
    rcases argv with _ | ⟨x, _ | ⟨y, _ | ⟨z, rest⟩⟩⟩
    · simp [Preset.presetMain] at h
    · simp [Preset.presetMain] at h
    · cases hl : Preset.lookupPreset y with
      | none => simp [Preset.presetMain, hl] at h
      | some v =>
        cases hs : env.startOk with
        | false => simp [Preset.presetMain, hl, hs] at h
        | true =>
          cases hh : env.hasSensor with
          | false => simp [Preset.presetMain, hl, hs, hh]
          | true => simp [Preset.presetMain, hl, hs, hh]
    · simp [Preset.presetMain] at h

/-- Witness for the amended C6: a leak-free viewer run, a viewer run
whose start fails, and a preset run that starts and stops. -/
theorem C6_lifecycle_witness :
    (∃ mid, Viewer.viewerRun envViewerOk =
        Viewer.Event.started :: mid ++ [Viewer.Event.stopped] ∧
        Viewer.Event.stopped ∉ mid ∧ Viewer.Event.started ∉ mid) ∧
    Viewer.Event.acquire ∉ Viewer.viewerRun envViewerNoStart ∧
    Preset.Event.pipelineStopped ∈
      (Preset.presetMain [presetScript, goodPresetArg] envPresetW).1 :=
  ⟨C6_lifecycle_amended.1 envViewerOk rfl rfl rfl rfl,
    C6_lifecycle_amended.2.1 envViewerNoStart rfl,
    C6_lifecycle_amended.2.2 [presetScript, goodPresetArg] envPresetW (by decide)⟩

/-- Helper: every frame delivered by a poll against a configuration is
produced by one of the requests of that configuration and carries
exactly the data of that request. -/
theorem acquire_frames_mem (cfg : StreamConfiguration) (env : Acquire.AcqEnv) (f : Frame)
    (hf : f ∈ Acquire.acquireFrames cfg env) :
    ∃ r, r ∈ cfg ∧ f = Acquire.frameOf r := by
  simp [Acquire.acquireFrames, List.mem_map, List.mem_filter] at hf
  obtain ⟨r, ⟨hr, _⟩, hfr⟩ := hf
  exact ⟨r, hr, hfr.symm⟩

/-- Claim C7: round-trip between configuration and frames.  Every frame
of a frame set delivered on an active configuration matches the kind,
width and height of the stream request of that configuration that
produced it; in particular every frame delivered on the configuration
enabled by camera_diagnostic is 640 by 480. -/
theorem C7_frame_roundtrip :
    (∀ (cfg : StreamConfiguration) (env : Acquire.AcqEnv) (f : Frame),
      f ∈ Acquire.acquireFrames cfg env →
      ∃ r, r ∈ cfg ∧ f.kind = r.kind ∧ f.width = r.width ∧ f.height = r.height) ∧
    (∀ (env : Acquire.AcqEnv) (f : Frame),
      f ∈ Acquire.acquireFrames cameraDiagStreams env →
      f.width = 640 ∧ f.height = 480) := by
  constructor
  · intro cfg env f hf
    obtain ⟨r, hr, hfr⟩ := acquire_frames_mem cfg env f hf
    subst hfr
    exact ⟨r, hr, rfl, rfl, rfl⟩
  · intro env f hf
    obtain ⟨r, hr, hfr⟩ := acquire_frames_mem cameraDiagStreams env f hf
    subst hfr
    simp [cameraDiagStreams] at hr
    rcases hr with h | h <;> subst h <;> exact ⟨rfl, rfl⟩

/-- Witness for C7: with every stream delivering, the depth frame of
the camera_diagnostic configuration is a member of the delivered set
and exposes 640 by 480. -/
theorem C7_frame_roundtrip_witness :
    Acquire.frameOf depthReq ∈ Acquire.acquireFrames cameraDiagStreams envAcqAll ∧
    (Acquire.frameOf depthReq).width = 640 ∧ (Acquire.frameOf depthReq).height = 480 :=
  ⟨by decide, C7_frame_roundtrip.2 envAcqAll (Acquire.frameOf depthReq) (by decide)⟩

/-- Claim C8: the preset entry point validates its single positional
argument against the fixed preset set; on every invocation whose
argument vector is not exactly a script name plus one known preset
name, it prints the usage text and returns with exit code 0 before any
pipeline is created or started. -/
theorem C8_preset_arg_validation (argv : List String) (env : Preset.Env)
    (h : Preset.presetArgInvalid argv = true) :
    Preset.presetMain argv env = ([Preset.Event.usagePrinted], 0) ∧
    Preset.Event.pipelineCreated ∉ (Preset.presetMain argv env).1 ∧
    Preset.Event.pipelineStarted ∉ (Preset.presetMain argv env).1 := by
  have heq : Preset.presetMain argv env = ([Preset.Event.usagePrinted], 0) := by
    rcases argv with _ | ⟨x, _ | ⟨y, _ | ⟨z, rest⟩⟩⟩
    · rfl
    · rfl
    · have h2 : (Preset.lookupPreset y).isNone = true := h
      have hnone : Preset.lookupPreset y = none := Option.isNone_iff_eq_none.mp h2
      simp [Preset.presetMain, hnone]
    · rfl
  exact ⟨heq, by simp [heq], by simp [heq]⟩

/-- Witness for C8: the invocation with the unknown preset name prints
usage, returns exit code 0 and creates no pipeline. -/
theorem C8_preset_arg_validation_witness :
    Preset.presetArgInvalid [presetScript, badPresetArg] = true ∧
    Preset.presetMain [presetScript, badPresetArg] envPresetW =
      ([Preset.Event.usagePrinted], 0) :=
  ⟨by decide,
    (C8_preset_arg_validation [presetScript, badPresetArg] envPresetW (by decide)).1⟩

end RealSenseScripts
